import Mathlib

/-!
Shallow embedding of the ServiceMonitor / Prometheus CRD converter
(`servicemonitor.py`): the data model of the manifests and of the shared
conversion context, the resolution pipeline (service resolver, port
resolver, TLS/CA builder, scrape job assembler, exclusion filter, output
renderer), and theorems checking the documented behaviour against this
embedding.

Modelling conventions:
- Python dicts that preserve insertion order become association lists
  `List (String × T)`; Python sets become lists queried only through
  membership.
- A dict key that may be absent becomes an `Option`; `d.get(k, default)`
  becomes `(... ).getD default`.
- Kubernetes port values (int or string) become the `PortVal` sum type.
- Warning strings are built exactly as the corresponding f-strings; the
  apostrophe character is written with the escape \x27 and braces with
  \x7b / \x7d.
- The one file write (prometheus.yml) is modelled by recording the list of
  scrape jobs that would be serialized (`RunResult.written`); YAML
  rendering itself is an external primitive and is not modelled.
-/

/-- A Kubernetes port value as it appears in a manifest: an integer or a
string (either a digit string or a port name). -/
inductive PortVal where
  | num (n : Int)
  | str (s : String)
deriving DecidableEq, Repr

/-- Truthiness of an optional port value, as Python evaluates
`not port_ref` after `ep.get("port", "")`: an absent key, the number 0 and
the empty string are all falsy. -/
def pv_falsy : Option PortVal → Bool
  | none => true
  | some (.num n) => n == 0
  | some (.str s) => s.isEmpty

/-- Python `s.isdigit()` restricted to ASCII digits: true for a non-empty
all-digit string. -/
def is_digit_str (s : String) : Bool :=
  !s.isEmpty && s.toList.all (fun c => c.isDigit)

/-- Value of a decimal digit list, folding most-significant first; on the
output of `is_digit_str` this is Python `int(s)`. -/
def digits_to_nat (s : String) : Nat :=
  s.toList.foldl (fun a c => a * 10 + (c.toNat - 48)) 0

/-- The decimal digit character for a value below ten. -/
def digit_char (n : Nat) : Char :=
  match n with
  | 0 => '0' | 1 => '1' | 2 => '2' | 3 => '3' | 4 => '4'
  | 5 => '5' | 6 => '6' | 7 => '7' | 8 => '8' | _ => '9'

/-- Structural worker for decimal rendering; the fuel only bounds the
recursion depth and never runs out when it starts at the number itself. -/
def nat_decimal_go : Nat → Nat → List Char
  | 0, n => [digit_char n]
  | fuel + 1, n =>
    if n < 10 then [digit_char n]
    else nat_decimal_go fuel (n / 10) ++ [digit_char (n % 10)]

/-- Decimal rendering of a natural number, most-significant digit first;
this is Python `str(n)` for a non-negative integer. -/
def nat_decimal (n : Nat) : List Char := nat_decimal_go n n

/-- Decimal rendering of a natural number as a string. -/
def natStr (n : Nat) : String := String.mk (nat_decimal n)

/-- Decimal rendering of an integer, as Python `str(i)`. -/
def intStr : Int → String
  | .ofNat n => natStr n
  | .negSucc n => "-" ++ natStr (n + 1)

/-- Rendering of a port value inside an f-string. -/
def pvStr : PortVal → String
  | .num n => intStr n
  | .str s => s

/-- Value of a digit list read back most-significant first (left inverse
used to prove `nat_decimal` injective). -/
def dec_of_digits (l : List Char) : Nat :=
  l.foldl (fun a c => a * 10 + (c.toNat - 48)) 0

/-! Glob matching, embedding the semantics of the standard library call
`fnmatch.fnmatch(name, pat)` used by `_is_excluded` (case normalization is
the identity on POSIX). Like `fnmatch.translate`, the pattern is first
turned into a token list (star, single-character wildcard, literal,
character class) and the token list is then matched against the name. -/

/-- Scan a character-class body up to the closing bracket; returns the
class characters and the remainder of the pattern, or `none` when the
class is unterminated (in which case the opening bracket is literal). -/
def splitAtClose : List Char → Option (List Char × List Char)
  | [] => none
  | c :: rest =>
    if c = ']' then some ([], rest)
    else (splitAtClose rest).map (fun p => (c :: p.1, p.2))

/-- Parse a character class right after the opening bracket, following the
scan of `fnmatch.translate`: an initial exclamation mark negates the class,
and a closing bracket placed first (after the optional negation) is an
ordinary class member. Returns (negated, class members, rest of pattern). -/
def parseCharClass (l : List Char) : Option (Bool × List Char × List Char) :=
  match l with
  | '!' :: ']' :: rest => (splitAtClose rest).map (fun p => (true, ']' :: p.1, p.2))
  | '!' :: rest => (splitAtClose rest).map (fun p => (true, p.1, p.2))
  | ']' :: rest => (splitAtClose rest).map (fun p => (false, ']' :: p.1, p.2))
  | rest => (splitAtClose rest).map (fun p => (false, p.1, p.2))

/-- One token of a translated glob pattern. -/
inductive GlobTok where
  | star
  | anyChar
  | lit (c : Char)
  | cls (neg : Bool) (chars : List Char)
deriving DecidableEq, Repr

/-- Structural worker for glob translation; the fuel only bounds the
recursion depth (every step consumes at least one pattern character, by
`parseCharClass_length`) and never runs out when it starts at the pattern
length. -/
def globTokensF : Nat → List Char → List GlobTok
  | 0, _ => []
  | fuel + 1, l =>
    match l with
    | [] => []
    | '*' :: ps => .star :: globTokensF fuel ps
    | '?' :: ps => .anyChar :: globTokensF fuel ps
    | '[' :: ps =>
      match parseCharClass ps with
      | some r => .cls r.1 r.2.1 :: globTokensF fuel r.2.2
      | none => .lit '[' :: globTokensF fuel ps
    | c :: ps => .lit c :: globTokensF fuel ps

/-- Translate a glob pattern into tokens, as `fnmatch.translate` does:
star, question mark, character class (an unterminated class leaves the
opening bracket literal), and literal characters. -/
def globTokens (l : List Char) : List GlobTok := globTokensF l.length l

/-- Membership of a character in a class body, with regex range semantics
for a dash between two characters. -/
def matchClass (c : Char) : List Char → Bool
  | a :: '-' :: b :: rest => (a ≤ c && c ≤ b) || matchClass c rest
  | a :: rest => a == c || matchClass c rest
  | [] => false

/-- Structural worker for token matching; the fuel only bounds the
recursion depth (every step shortens the token list or the name) and never
runs out when it starts above the sum of both lengths. -/
def toksMatchF : Nat → List GlobTok → List Char → Bool
  | 0, _, _ => false
  | fuel + 1, ts, s =>
    match ts, s with
    | [], s => s.isEmpty
    | .star :: ts, s =>
      toksMatchF fuel ts s ||
        (match s with
         | [] => false
         | _ :: s2 => toksMatchF fuel (.star :: ts) s2)
    | .anyChar :: ts, s =>
      (match s with
       | [] => false
       | _ :: s2 => toksMatchF fuel ts s2)
    | .lit c :: ts, s =>
      (match s with
       | [] => false
       | c2 :: s2 => c == c2 && toksMatchF fuel ts s2)
    | .cls neg cs :: ts, s =>
      (match s with
       | [] => false
       | c :: s2 => (matchClass c cs != neg) && toksMatchF fuel ts s2)

/-- Match a token list against a name, with the usual backtracking star
semantics of the regex produced by `fnmatch.translate`. -/
def toksMatch (ts : List GlobTok) (s : List Char) : Bool :=
  toksMatchF (ts.length + s.length + 1) ts s

/-- Embedded `fnmatch.fnmatch(name, pat)` (POSIX case normalization is the
identity). -/
def fnmatch_match (nm pat : String) : Bool :=
  toksMatch (globTokens pat.toList) nm.toList

/-- Check if a service name matches any exclude pattern
(`_is_excluded`). -/
def is_excluded (nm : String) (exclude : List String) : Bool :=
  exclude.any (fun pat => fnmatch_match nm pat)

/-! Data model: manifests, the external service registry, and the shared
run context (`ctx`). The Python key "namespace" is the Lean field `ns`. -/

/-- One entry of the `ports` list of a registry service: keys `name`,
`port`, `targetPort`, each possibly absent. -/
structure ServicePort where
  name : Option String
  port : Option PortVal
  targetPort : Option PortVal
deriving DecidableEq, Repr

/-- A `ServiceInfo` entry of `ctx.services_by_selector`: keys `name`
(always present), `namespace` (default empty), `selector`, `type` and
`ports`. -/
structure ServiceInfo where
  name : String
  ns : String
  selector : List (String × String)
  type : String
  ports : List ServicePort
deriving DecidableEq, Repr

/-- The `ca.configMap` reference of an endpoint `tlsConfig`: keys `name`
and `key`, each possibly absent. -/
structure CAConfigMapRef where
  name : Option String
  key : Option String
deriving DecidableEq, Repr

/-- An endpoint `tlsConfig`: the `ca.configMap` path collapsed into one
optional reference (absent when either level is missing), plus
`serverName`. -/
structure TLSCfgIn where
  ca_configMap : Option CAConfigMapRef
  serverName : Option String
deriving DecidableEq, Repr

/-- One `ServiceMonitor` endpoint: keys `port`, `scheme`, `path`,
`interval`, `tlsConfig`, each possibly absent. -/
structure Endpoint where
  port : Option PortVal
  scheme : Option String
  path : Option String
  interval : Option String
  tlsConfig : Option TLSCfgIn
deriving DecidableEq, Repr

/-- A `ServiceMonitor` manifest, flattened to the fields the converter
reads: `metadata.name` (default "?"), `spec.selector.matchLabels`
(default empty) and `spec.endpoints` (default empty). -/
structure SMManifest where
  metadata_name : Option String
  matchLabels : List (String × String)
  endpoints : List Endpoint
deriving DecidableEq, Repr

/-- The runtime parameters indexed from the first `Prometheus` manifest
(`_index_prometheus`): each field defaulted to the empty string. -/
structure PromSpec where
  image : String
  version : String
  retention : String
deriving DecidableEq, Repr

/-- A `Prometheus` manifest, flattened to the fields the indexer reads. -/
structure PromManifest where
  metadata_name : Option String
  image : Option String
  version : Option String
  retention : Option String
deriving DecidableEq, Repr

/-- The mutable fields of the shared run context that this converter reads
or writes; `exclude` is `ctx.config.get("exclude", [])`. -/
structure Ctx where
  exclude : List String
  warnings : List String
  alias_map : List (String × String)
  services_by_selector : List (String × ServiceInfo)
  configmaps : List String
  generated_cms : List String
deriving DecidableEq, Repr

/-- The optional `tls_config` block of an emitted scrape job; both keys
are set only when populated, and the whole block is attached to the job
only when at least one key is set. -/
structure TlsConfig where
  ca_file : Option String
  server_name : Option String
deriving DecidableEq, Repr

/-- One emitted scrape job; `static_configs` holds a single entry with a
single target string, modelled by the `target` field. -/
structure ScrapeJob where
  job_name : String
  metrics_path : String
  scrape_interval : String
  scheme : String
  target : String
  tls_config : Option TlsConfig
deriving DecidableEq, Repr

/-- The value returned by `_build_scrape_job` on success: the job and its
CA mounts. -/
structure JobOut where
  job : ScrapeJob
  ca_mounts : List String
deriving DecidableEq, Repr

/-- The produced Prometheus compose service definition. -/
structure ComposeService where
  image : String
  restart : String
  command : List String
  volumes : List String
  ports : List String
deriving DecidableEq, Repr

/-- The provider result: named compose services to merge into the output. -/
structure ConvertResult where
  services : List (String × ComposeService)
deriving DecidableEq, Repr

/-- The observable outcome of one `_process_servicemonitors` run: the
returned result, the final context, and the scrape jobs written to
`prometheus.yml` (none when no file was written). -/
structure RunResult where
  res : ConvertResult
  ctx : Ctx
  written : Option (List ScrapeJob)
deriving DecidableEq, Repr

/-! Warning strings, built exactly as the f-strings in the source. Every
per-monitor or per-endpoint warning starts with the same text, which the
run-level theorems use to separate it from the run-level warning. -/

/-- Python repr of a string-to-string dict, as an f-string renders
`match_labels` (repr escaping of exotic characters inside keys or values
is not modelled). -/
def py_dict_repr (d : List (String × String)) : String :=
  "\x7b" ++
    String.intercalate ", "
      (d.map (fun kv => "\x27" ++ kv.1 ++ "\x27: \x27" ++ kv.2 ++ "\x27")) ++
    "\x7d"

/-- Common first part of every per-monitor warning. -/
def sm_warn_head : String := "ServiceMonitor \x27"

/-- Warning for a monitor without `selector.matchLabels`. -/
def warn_no_matchLabels (nm : String) : String :=
  sm_warn_head ++ (nm ++ "\x27: no selector.matchLabels, skipping")

/-- Warning for a monitor that neither label match nor name fallback could
resolve; it reports the monitor name and its selector. -/
def warn_no_match (nm : String) (mls : List (String × String)) : String :=
  sm_warn_head ++
    (nm ++ ("\x27: no K8s Service matches labels " ++ (py_dict_repr mls ++ ", skipping")))

/-- Warning for an endpoint whose port could not be resolved; it reports
the monitor name and the unresolved port token. -/
def warn_port (nm tok : String) : String :=
  sm_warn_head ++
    (nm ++ ("\x27: could not resolve port \x27" ++ (tok ++ "\x27 to a number, skipping endpoint")))

/-- Warning for a CA configmap reference not in the known set. -/
def warn_ca (nm cm : String) : String :=
  sm_warn_head ++
    (nm ++ ("\x27: CA configmap \x27" ++ (cm ++ "\x27 not found — TLS job generated without ca_file")))

/-- Warning for a run with a missing `Prometheus` manifest, reporting the
defaulted image and retention. -/
def warn_defaults (image retention : String) : String :=
  "No Prometheus CR found in manifests — using defaults (image=" ++
    image ++ ", retention=" ++ retention ++ ")"

/-- Run-level warning for zero resolvable monitors. -/
def warn_no_resolvable : String := "No resolvable ServiceMonitors found"

/-! Phase 1: the CR indexer (`_index_prometheus`). Extra manifests warn on
stderr, returned here as the second component. -/

/-- Index the first `Prometheus` manifest; later manifests only produce
stderr warnings. -/
def index_prometheus (manifests : List PromManifest) : Option PromSpec × List String :=
  match manifests with
  | [] => (none, [])
  | m :: rest =>
    (some ⟨(m.image).getD "", (m.version).getD "", (m.retention).getD ""⟩,
     rest.map (fun x =>
       "Warning: ignoring extra Prometheus CR \x27" ++ (x.metadata_name.getD "?") ++
         "\x27 (only the first is used)"))

/-! Service resolver (`_find_service` and `_fallback_by_name`). -/

/-- Find the first registry service with a non-empty selector that has
every (key, value) pair of `match_labels` in its own selector. -/
def find_service (match_labels : List (String × String))
    (svcs : List (String × ServiceInfo)) : Option ServiceInfo :=
  (svcs.map Prod.snd).find? (fun si =>
    !si.selector.isEmpty &&
      match_labels.all (fun kv => List.lookup kv.1 si.selector == some kv.2))

/-- Walk the candidate names, resolving each through the alias table and
accepting the first resolved name found in the known set. -/
def fallback_go (alias_map : List (String × String)) (known : List String) :
    List String → Option String
  | [] => none
  | c :: rest =>
    let compose_name := (List.lookup c alias_map).getD c
    if known.contains compose_name then some compose_name
    else fallback_go alias_map known rest

/-- Name-based fallback (`_fallback_by_name`): candidates are the monitor
name then all matchLabels values; the known set is alias values, alias
keys and registry service names. -/
def fallback_by_name (sm_name : String) (match_labels : List (String × String))
    (alias_map : List (String × String)) (svcs : List (String × ServiceInfo)) :
    Option String :=
  fallback_go alias_map
    ((alias_map.map Prod.snd) ++ (alias_map.map Prod.fst) ++ (svcs.map Prod.fst))
    (sm_name :: match_labels.map Prod.snd)

/-! Port resolver (`_resolve_port`). The Python function may return an
integer, a string, or None; the string case arises only in the
implicit-port branch, which passes the first declared target-port through
without a numeric check. -/

/-- Resolve an endpoint port against the matched service, mirroring the
source branch for branch. -/
def resolve_port (ep : Endpoint) (svc_info : Option ServiceInfo) : Option PortVal :=
  if pv_falsy ep.port then
    match svc_info with
    | none => none
    | some si =>
      match si.ports with
      | [] => none
      | sp :: _ => (sp.targetPort).orElse (fun _ => sp.port)
  else
    match ep.port with
    | some (.num n) => some (.num n)
    | some (.str s) =>
      if is_digit_str s then some (.num (Int.ofNat (digits_to_nat s)))
      else
        match svc_info with
        | none => none
        | some si =>
          match si.ports.find? (fun sp => sp.name == some s) with
          | none => none
          | some sp =>
            match (sp.targetPort).orElse (fun _ => sp.port) with
            | some (.num n) => some (.num n)
            | some (.str t) =>
              if is_digit_str t then some (.num (Int.ofNat (digits_to_nat t))) else none
            | none => none
    | none => none

/-- The port token shown in the unresolved-port warning:
`ep.get("port", "(none)")` rendered by the f-string. -/
def port_token (ep : Endpoint) : String :=
  match ep.port with
  | none => "(none)"
  | some (.num n) => intStr n
  | some (.str s) => s

/-! TLS/CA builder (`_build_tls_config`) and scrape job assembler
(`_build_scrape_job`). -/

/-- Build the TLS config, the CA mounts and the warnings for one endpoint:
a CA configmap reference found in the known set yields `ca_file` and one
mount line; a reference not found yields one warning; `serverName` is
copied when non-empty. -/
def build_tls_config (ep : Endpoint) (sm_name : String) (configmaps : List String) :
    TlsConfig × List String × List String :=
  let ca_ref := ep.tlsConfig.bind (fun t => t.ca_configMap)
  let cm_name := (ca_ref.bind (fun r => r.name)).getD ""
  let cm_key := (ca_ref.bind (fun r => r.key)).getD "ca-certificates.crt"
  let step :=
    if cm_name = "" then ((none : Option String), ([] : List String), ([] : List String))
    else if configmaps.contains cm_name then
      let container_path := "/etc/prometheus/ca/" ++ cm_name ++ "/" ++ cm_key
      (some container_path,
       ["./configmaps/" ++ cm_name ++ "/" ++ cm_key ++ ":" ++ container_path ++ ":ro"],
       [])
    else ((none : Option String), ([] : List String), [warn_ca sm_name cm_name])
  let server_name := (ep.tlsConfig.bind (fun t => t.serverName)).getD ""
  (⟨step.1, if server_name = "" then none else some server_name⟩, step.2.1, step.2.2)

/-- Build one scrape job from an endpoint, or skip it with a warning when
the port does not resolve. Returns the optional job (with its CA mounts)
and the warnings appended during the call. -/
def build_scrape_job (sm_name : String) (ep_idx ep_count : Nat) (ep : Endpoint)
    (svc_info : Option ServiceInfo) (compose_name : String)
    (svcs : List (String × ServiceInfo)) (configmaps : List String) :
    Option JobOut × List String :=
  match resolve_port ep svc_info with
  | none => (none, [warn_port sm_name (port_token ep)])
  | some port =>
    let job_name := if ep_count = 1 then sm_name else sm_name ++ "-" ++ natStr ep_idx
    let scheme := ep.scheme.getD "http"
    let path := ep.path.getD "/metrics"
    let interval := ep.interval.getD "30s"
    let ns0 :=
      match List.lookup compose_name svcs with
      | some si => si.ns
      | none => ""
    let nsv :=
      match svc_info with
      | some si => if si.ns = "" then ns0 else si.ns
      | none => ns0
    let target_host :=
      if nsv = "" then compose_name
      else compose_name ++ "." ++ nsv ++ ".svc.cluster.local"
    let base : ScrapeJob :=
      { job_name := job_name, metrics_path := path, scrape_interval := interval,
        scheme := scheme, target := target_host ++ ":" ++ pvStr port,
        tls_config := none }
    if scheme = "https" then
      let t := build_tls_config ep sm_name configmaps
      let job :=
        match t.1 with
        | ⟨none, none⟩ => base
        | tl => { base with tls_config := some tl }
      (some ⟨job, t.2.1⟩, t.2.2)
    else
      (some ⟨base, []⟩, [])

/-! Exclusion filter, endpoint loop, monitor loop and the full
`_process_servicemonitors` run. -/

/-- The endpoint loop of one monitor, carrying the running endpoint index:
collects the jobs, the CA mounts and the warnings in encounter order. -/
def run_endpoints_from (sm_name : String) (svc_info : Option ServiceInfo)
    (compose_name : String) (svcs : List (String × ServiceInfo))
    (configmaps : List String) (total : Nat) :
    Nat → List Endpoint → List ScrapeJob × List String × List String
  | _, [] => ([], [], [])
  | i, ep :: rest =>
    let r := build_scrape_job sm_name i total ep svc_info compose_name svcs configmaps
    let acc := run_endpoints_from sm_name svc_info compose_name svcs configmaps total (i + 1) rest
    match r.1 with
    | none => (acc.1, acc.2.1, r.2 ++ acc.2.2)
    | some jo => (jo.job :: acc.1, jo.ca_mounts ++ acc.2.1, r.2 ++ acc.2.2)

/-- The endpoint loop started at index zero with the endpoint count. -/
def run_endpoints (sm_name : String) (eps : List Endpoint)
    (svc_info : Option ServiceInfo) (compose_name : String)
    (svcs : List (String × ServiceInfo)) (configmaps : List String) :
    List ScrapeJob × List String × List String :=
  run_endpoints_from sm_name svc_info compose_name svcs configmaps eps.length 0 eps

/-- After successful resolution: drop the monitor silently when its
resolved compose name matches an exclude glob, otherwise run its
endpoints. -/
def monitor_after_resolve (nm : String) (eps : List Endpoint)
    (svc_info : Option ServiceInfo) (compose_name : String) (exclude : List String)
    (svcs : List (String × ServiceInfo)) (configmaps : List String) :
    List ScrapeJob × List String × List String :=
  if is_excluded compose_name exclude then ([], [], [])
  else run_endpoints nm eps svc_info compose_name svcs configmaps

/-- One iteration of the monitor loop: selector check, label match with
alias resolution, name fallback, exclusion, endpoints. Returns the jobs,
the CA mounts and the warnings of this monitor. -/
def process_monitor (m : SMManifest) (exclude : List String)
    (alias_map : List (String × String)) (svcs : List (String × ServiceInfo))
    (configmaps : List String) : List ScrapeJob × List String × List String :=
  let nm := m.metadata_name.getD "?"
  if m.matchLabels.isEmpty then ([], [], [warn_no_matchLabels nm])
  else
    match find_service m.matchLabels svcs with
    | some tsvc =>
      monitor_after_resolve nm m.endpoints (some tsvc)
        ((List.lookup tsvc.name alias_map).getD tsvc.name) exclude svcs configmaps
    | none =>
      match fallback_by_name nm m.matchLabels alias_map svcs with
      | some compose_name =>
        monitor_after_resolve nm m.endpoints none compose_name exclude svcs configmaps
      | none => ([], [], [warn_no_match nm m.matchLabels])

/-- The monitor loop over all manifests, concatenating jobs, CA mounts
and warnings in encounter order. -/
def run_monitors (exclude : List String) (alias_map : List (String × String))
    (svcs : List (String × ServiceInfo)) (configmaps : List String) :
    List SMManifest → List ScrapeJob × List String × List String
  | [] => ([], [], [])
  | m :: rest =>
    let a := process_monitor m exclude alias_map svcs configmaps
    let b := run_monitors exclude alias_map svcs configmaps rest
    (a.1 ++ b.1, a.2.1 ++ b.2.1, a.2.2 ++ b.2.2)

/-! Output renderer (`_build_prometheus_service`), self-registration
(`_find_prometheus_k8s_service` and the registration block) and the full
run. -/

/-- The fixed scrape-config bind mount line. -/
def config_mount : String :=
  "./configmaps/prometheus-scrape-config/prometheus.yml:/etc/prometheus/prometheus.yml:ro"

/-- The generated config artifact name. -/
def scrape_config_cm : String := "prometheus-scrape-config"

/-- The CA mount loop of `_build_prometheus_service`: a seen set (first
component) and the growing volume list (second component). -/
def add_mounts (state : List String × List String) :
    List String → List String × List String
  | [] => state
  | mount :: rest =>
    if state.1.contains mount then add_mounts state rest
    else add_mounts (mount :: state.1, state.2 ++ [mount]) rest

/-- Substring containment of Python, used for `"prometheus" in svc_name`
and `":" in image` (the latter through a one-character needle). -/
def str_contains_sub (s sub : String) : Bool :=
  (s.splitOn sub).length > 1

/-- Python `version.lstrip("v")`: drop every leading letter v. -/
def strip_leading_v (s : String) : String :=
  String.mk (s.toList.dropWhile (fun c => c == 'v'))

/-- Build the Prometheus compose service definition and the warnings of
this step (the defaults warning exactly when no spec was indexed). -/
def build_prometheus_service (prom : Option PromSpec) (ca_mounts : List String) :
    ComposeService × List String :=
  let p := prom.getD ⟨"", "", ""⟩
  let image0 := if p.image = "" then "prom/prometheus" else p.image
  let image :=
    if p.version ≠ "" ∧ str_contains_sub image0 ":" = false then
      image0 ++ ":v" ++ strip_leading_v p.version
    else if str_contains_sub image0 ":" = false then image0 ++ ":latest"
    else image0
  let retention := if p.retention = "" then "15d" else p.retention
  let ws := if prom.isNone then [warn_defaults image retention] else []
  let volumes := (add_mounts ([], [config_mount]) ca_mounts).2
  ({ image := image, restart := "always",
     command := ["--config.file=/etc/prometheus/prometheus.yml",
                 "--storage.tsdb.retention.time=" ++ retention],
     volumes := volumes, ports := ["9090:9090"] }, ws)

/-- Find the registry service whose key contains "prometheus" without
being "prometheus" and whose ports include 9090 as port or target-port. -/
def find_prometheus_k8s_service (svcs : List (String × ServiceInfo)) :
    Option ServiceInfo :=
  (svcs.find? (fun p =>
    str_contains_sub p.1 "prometheus" && p.1 != "prometheus" &&
      p.2.ports.any (fun sp =>
        sp.port == some (.num 9090) || sp.targetPort == some (.num 9090)))).map Prod.snd

/-- Assignment into an insertion-ordered dict: update in place when the
key exists, otherwise append. -/
def dict_set (d : List (String × String)) (k v : String) : List (String × String) :=
  if d.any (fun p => p.1 == k) then
    d.map (fun p => if p.1 == k then (k, v) else p)
  else d ++ [(k, v)]

/-- The self-registration block at the end of a successful run: alias the
found K8s Prometheus service to "prometheus" and add a synthetic registry
entry with an empty selector when the key is absent. -/
def register_prometheus (ctx : Ctx) : Ctx :=
  match find_prometheus_k8s_service ctx.services_by_selector with
  | none => ctx
  | some svc =>
    let am := dict_set ctx.alias_map svc.name "prometheus"
    let sbs :=
      if ctx.services_by_selector.any (fun p => p.1 == "prometheus") then
        ctx.services_by_selector
      else
        ctx.services_by_selector ++
          [("prometheus",
            { name := "prometheus", ns := svc.ns, selector := [],
              type := "ClusterIP", ports := svc.ports })]
    { ctx with alias_map := am, services_by_selector := sbs }

/-- The full `_process_servicemonitors` run: early return on an empty
manifest list, the monitor loop, the zero-job warning path, or the config
write, service build and self-registration. -/
def process_servicemonitors (prom : Option PromSpec) (manifests : List SMManifest)
    (ctx : Ctx) : RunResult :=
  if manifests.isEmpty then ⟨⟨[]⟩, ctx, none⟩
  else
    let r := run_monitors ctx.exclude ctx.alias_map ctx.services_by_selector
      ctx.configmaps manifests
    if r.1.isEmpty then
      ⟨⟨[]⟩, { ctx with warnings := ctx.warnings ++ r.2.2 ++ [warn_no_resolvable] }, none⟩
    else
      let ctx1 :=
        { ctx with
          warnings := ctx.warnings ++ r.2.2,
          generated_cms :=
            if ctx.generated_cms.contains scrape_config_cm then ctx.generated_cms
            else ctx.generated_cms ++ [scrape_config_cm] }
      let sw := build_prometheus_service prom r.2.1
      let ctx2 := { ctx1 with warnings := ctx1.warnings ++ sw.2 }
      let ctx3 := register_prometheus ctx2
      ⟨⟨[("prometheus", sw.1)]⟩, ctx3, some r.1⟩

/-! Claim-side definitions, written from the specification text, to be
compared with the embedded functions. -/

/-- Fallback resolution as the specification words it: candidate list =
monitor name then all matchLabels values in encounter order; resolve each
through the alias table (identity if absent); accept a candidate when its
resolved name lies in the union of alias keys, alias values and registry
service names; return the first accepted resolved name. -/
def spec_fallback (sm_name : String) (match_labels : List (String × String))
    (alias_map : List (String × String)) (svc_names : List String) : Option String :=
  let candidates := sm_name :: match_labels.map Prod.snd
  candidates.findSome? (fun c =>
    let resolved := (List.lookup c alias_map).getD c
    if (alias_map.map Prod.fst).contains resolved ||
        (alias_map.map Prod.snd).contains resolved ||
        svc_names.contains resolved then
      some resolved
    else none)

/-- Target host as the specification words it: prefer the namespace of
the label-matched service, else the namespace of the registry entry keyed
by the resolved compose name; qualify with `.svc.cluster.local` when a
namespace is known, else use the bare name. -/
def spec_target_host (compose_name : String) (svc_info : Option ServiceInfo)
    (svcs : List (String × ServiceInfo)) : String :=
  let registry_ns :=
    match List.lookup compose_name svcs with
    | some si => si.ns
    | none => ""
  let known_ns :=
    match svc_info with
    | some si => if si.ns = "" then registry_ns else si.ns
    | none => registry_ns
  if known_ns = "" then compose_name
  else compose_name ++ "." ++ known_ns ++ ".svc.cluster.local"

/-- Image resolution as the specification words it. -/
def spec_image (prom : Option PromSpec) : String :=
  let raw := match prom with | none => "" | some p => p.image
  let img := if raw = "" then "prom/prometheus" else raw
  let ver := match prom with | none => "" | some p => p.version
  if ver ≠ "" ∧ str_contains_sub img ":" = false then
    img ++ ":v" ++ strip_leading_v ver
  else if str_contains_sub img ":" = false then img ++ ":latest"
  else img

/-- Retention resolution as the specification words it. -/
def spec_retention (prom : Option PromSpec) : String :=
  match prom with
  | none => "15d"
  | some p => if p.retention = "" then "15d" else p.retention

/-- First-seen-order deduplication relative to an already-seen set, as the
specification words the CA mount deduplication. -/
def dedup_from (seen : List String) : List String → List String
  | [] => []
  | x :: xs =>
    if seen.contains x then dedup_from seen xs
    else x :: dedup_from (x :: seen) xs

/-- Job name as the specification words it: the monitor name for a single
endpoint, the monitor name with the zero-based index for several. -/
def spec_job_name (sm_name : String) (ep_count ep_idx : Nat) : String :=
  if ep_count = 1 then sm_name else sm_name ++ "-" ++ natStr ep_idx

/-- The CA configmap name referenced by an endpoint, as the TLS builder
reads it: `tlsConfig.ca.configMap.name` defaulted to the empty string. -/
def cm_name_of (ep : Endpoint) : String :=
  ((ep.tlsConfig.bind fun t => t.ca_configMap).bind fun r => r.name).getD ""

/-- The TLS server name referenced by an endpoint, defaulted to the empty
string. -/
def server_name_of (ep : Endpoint) : String :=
  (ep.tlsConfig.bind fun t => t.serverName).getD ""

/-! Termination facts of the glob scanner: every parsed class consumes at
least one pattern character, so the fuel of the structural workers never
runs out when primed with the pattern length. -/

theorem splitAtClose_length :
    ∀ {l : List Char} {p : List Char × List Char},
      splitAtClose l = some p → p.2.length < l.length := by
  intro l
  induction l with
  | nil => intro p h; simp [splitAtClose] at h
  | cons c rest ih =>
    intro p h
    by_cases hc : c = ']'
    · subst hc
      simp only [splitAtClose, if_pos rfl] at h
      cases h
      simp
    · simp only [splitAtClose, if_neg hc] at h
      cases hs : splitAtClose rest with
      | none => rw [hs] at h; simp at h
      | some q =>
        rw [hs] at h
        simp only [Option.map_some'] at h
        cases h
        have := ih hs
        simpa using Nat.lt_succ_of_lt this

theorem parseCharClass_length {l : List Char} {r : Bool × List Char × List Char} :
    parseCharClass l = some r → r.2.2.length < l.length := by
  unfold parseCharClass
  split
  all_goals
    intro h
    rw [Option.map_eq_some'] at h
    obtain ⟨q, hs, hr⟩ := h
    have hlen := splitAtClose_length hs
    subst hr
    show q.2.length < _
    try simp only [List.length_cons]
    omega

/-! Decimal rendering is injective: `dec_of_digits` is a left inverse of
`nat_decimal`. -/

theorem digit_char_toNat {d : Nat} (h : d < 10) : (digit_char d).toNat - 48 = d := by
  interval_cases d <;> rfl

theorem dec_of_digits_append (l : List Char) (c : Char) :
    dec_of_digits (l ++ [c]) = dec_of_digits l * 10 + (c.toNat - 48) := by
  simp [dec_of_digits, List.foldl_append]

theorem dec_of_digits_nat_decimal_go (fuel : Nat) :
    ∀ n : Nat, n ≤ fuel → dec_of_digits (nat_decimal_go fuel n) = n := by
  induction fuel with
  | zero =>
    intro n h
    have hn : n = 0 := by omega
    subst hn
    decide
  | succ f ih =>
    intro n h
    simp only [nat_decimal_go]
    by_cases h10 : n < 10
    · rw [if_pos h10]
      show dec_of_digits ([] ++ [digit_char n]) = n
      rw [dec_of_digits_append]
      have := digit_char_toNat h10
      simp only [dec_of_digits, List.foldl_nil]
      omega
    · rw [if_neg h10, dec_of_digits_append, ih (n / 10) (by omega)]
      have := digit_char_toNat (d := n % 10) (Nat.mod_lt _ (by omega))
      omega

theorem dec_of_digits_nat_decimal (n : Nat) : dec_of_digits (nat_decimal n) = n :=
  dec_of_digits_nat_decimal_go n n (Nat.le_refl n)

theorem natStr_injective {m n : Nat} (h : natStr m = natStr n) : m = n := by
  have hdata : nat_decimal m = nat_decimal n := by
    have := congrArg String.data h
    simpa [natStr] using this
  have := congrArg dec_of_digits hdata
  simpa [dec_of_digits_nat_decimal] using this

/-! String helper lemmas shared by several claims. -/

theorem string_append_left_cancel {a b c : String} (h : a ++ b = a ++ c) : b = c := by
  have hd := congrArg String.data h
  simp only [String.data_append] at hd
  exact String.ext (List.append_cancel_left hd)

theorem spec_job_name_inj (sm : String) {cnt : Nat} (hcnt : cnt ≠ 1) {i j : Nat}
    (hij : i ≠ j) : spec_job_name sm cnt i ≠ spec_job_name sm cnt j := by
  simp only [spec_job_name, if_neg hcnt]
  intro h
  exact hij (natStr_injective (string_append_left_cancel h))

theorem head_of_append {a b : String} {c : Char} (h : a.data.head? = some c) :
    (a ++ b).data.head? = some c := by
  rw [String.data_append]
  cases ha : a.data with
  | nil => rw [ha] at h; simp at h
  | cons x xs =>
    rw [ha] at h
    simp only [List.head?_cons, Option.some.injEq] at h
    simp [h]

/-- No per-monitor warning can coincide with the run-level warning: the
first starts with an S, the second with an N. -/
theorem sm_warn_head_ne_no_resolvable (t : String) :
    sm_warn_head ++ t ≠ warn_no_resolvable := by
  intro h
  have h1 : (sm_warn_head ++ t).data.head? = some 'S' := head_of_append rfl
  rw [h] at h1
  exact (by decide : ¬ warn_no_resolvable.data.head? = some 'S') h1

/-! Every warning emitted inside the monitor loop starts with
`sm_warn_head`. -/

theorem build_tls_config_warn_shape (ep : Endpoint) (sm : String) (cms : List String) :
    ∀ w ∈ (build_tls_config ep sm cms).2.2, ∃ t, w = sm_warn_head ++ t := by
  intro w hw
  simp only [build_tls_config] at hw
  split at hw
  · simp at hw
  · split at hw
    · simp at hw
    · simp only [List.mem_singleton] at hw
      exact ⟨_, hw⟩

theorem build_scrape_job_warn_shape (sm : String) (i n : Nat) (ep : Endpoint)
    (svc_info : Option ServiceInfo) (cn : String) (svcs : List (String × ServiceInfo))
    (cms : List String) :
    ∀ w ∈ (build_scrape_job sm i n ep svc_info cn svcs cms).2,
      ∃ t, w = sm_warn_head ++ t := by
  intro w hw
  simp only [build_scrape_job] at hw
  split at hw
  · simp only [List.mem_singleton] at hw
    exact ⟨_, hw⟩
  · split at hw
    · exact build_tls_config_warn_shape ep sm cms w hw
    · simp at hw

theorem run_endpoints_from_warn_shape (sm : String) (svc_info : Option ServiceInfo)
    (cn : String) (svcs : List (String × ServiceInfo)) (cms : List String)
    (total : Nat) :
    ∀ (i : Nat) (eps : List Endpoint),
      ∀ w ∈ (run_endpoints_from sm svc_info cn svcs cms total i eps).2.2,
        ∃ t, w = sm_warn_head ++ t := by
  intro i eps
  induction eps generalizing i with
  | nil => intro w hw; simp [run_endpoints_from] at hw
  | cons ep rest ih =>
    intro w hw
    simp only [run_endpoints_from] at hw
    split at hw
    · rcases List.mem_append.1 hw with h | h
      · exact build_scrape_job_warn_shape sm i total ep svc_info cn svcs cms w h
      · exact ih (i + 1) w h
    · rcases List.mem_append.1 hw with h | h
      · exact build_scrape_job_warn_shape sm i total ep svc_info cn svcs cms w h
      · exact ih (i + 1) w h

theorem process_monitor_warn_shape (m : SMManifest) (exclude : List String)
    (alias_map : List (String × String)) (svcs : List (String × ServiceInfo))
    (cms : List String) :
    ∀ w ∈ (process_monitor m exclude alias_map svcs cms).2.2,
      ∃ t, w = sm_warn_head ++ t := by
  intro w hw
  simp only [process_monitor] at hw
  split at hw
  · simp only [List.mem_singleton] at hw
    exact ⟨_, hw⟩
  · split at hw
    · simp only [monitor_after_resolve] at hw
      split at hw
      · simp at hw
      · exact run_endpoints_from_warn_shape _ _ _ _ _ _ 0 _ w hw
    · split at hw
      · simp only [monitor_after_resolve] at hw
        split at hw
        · simp at hw
        · exact run_endpoints_from_warn_shape _ _ _ _ _ _ 0 _ w hw
      · simp only [List.mem_singleton] at hw
        exact ⟨_, hw⟩

theorem run_monitors_warn_shape (exclude : List String)
    (alias_map : List (String × String)) (svcs : List (String × ServiceInfo))
    (cms : List String) :
    ∀ (ms : List SMManifest),
      ∀ w ∈ (run_monitors exclude alias_map svcs cms ms).2.2,
        ∃ t, w = sm_warn_head ++ t := by
  intro ms
  induction ms with
  | nil => intro w hw; simp [run_monitors] at hw
  | cons m rest ih =>
    intro w hw
    simp only [run_monitors] at hw
    rcases List.mem_append.1 hw with h | h
    · exact process_monitor_warn_shape m exclude alias_map svcs cms w h
    · exact ih w h

/-- The run-level warning never occurs among monitor-loop warnings. -/
theorem no_resolvable_not_mem_run_monitors (exclude : List String)
    (alias_map : List (String × String)) (svcs : List (String × ServiceInfo))
    (cms : List String) (ms : List SMManifest) :
    warn_no_resolvable ∉ (run_monitors exclude alias_map svcs cms ms).2.2 := by
  intro hmem
  obtain ⟨t, ht⟩ := run_monitors_warn_shape exclude alias_map svcs cms ms _ hmem
  exact sm_warn_head_ne_no_resolvable t ht.symm

/-! Helper lemmas for the claims. -/

theorem matchLabels_isEmpty_false {m : SMManifest} (h : m.matchLabels ≠ []) :
    m.matchLabels.isEmpty = false := by
  rcases hm : m.matchLabels with _ | ⟨a, l⟩
  · exact absurd hm h
  · rfl

theorem fallback_go_eq_findSome (alias_map : List (String × String))
    (svc_names : List String) (cands : List String) :
    fallback_go alias_map
      ((alias_map.map Prod.snd) ++ (alias_map.map Prod.fst) ++ svc_names) cands =
    cands.findSome? (fun c =>
      let resolved := (List.lookup c alias_map).getD c
      if (alias_map.map Prod.fst).contains resolved ||
          (alias_map.map Prod.snd).contains resolved ||
          svc_names.contains resolved then
        some resolved
      else none) := by
  induction cands with
  | nil => rfl
  | cons c rest ih =>
    simp only [fallback_go, List.findSome?_cons]
    have hcond : ∀ r : String,
        (((alias_map.map Prod.snd) ++ (alias_map.map Prod.fst) ++ svc_names).contains r) =
        ((alias_map.map Prod.fst).contains r || (alias_map.map Prod.snd).contains r ||
          svc_names.contains r) := by
      intro r
      simp only [List.contains_eq_any_beq, List.any_append]
      ac_rfl
    rw [hcond]
    split
    · rfl
    · exact ih

/-- Claim C1: for every ServiceMonitor whose non-empty matchLabels match
no registry service by label, the resolver tries the candidate list
(monitor name, then all matchLabels values in encounter order), resolves
each candidate through the alias table (identity if absent), and returns
the first candidate whose resolved name lies in the union of alias-table
keys, alias-table values and registry service names; if no candidate is
accepted, the monitor is skipped and one warning reporting its name and
its selector is appended. -/
theorem c1_name_fallback (m : SMManifest) (exclude : List String)
    (alias_map : List (String × String)) (svcs : List (String × ServiceInfo))
    (configmaps : List String) (hmls : m.matchLabels ≠ [])
    (hfind : find_service m.matchLabels svcs = none) :
    fallback_by_name (m.metadata_name.getD "?") m.matchLabels alias_map svcs =
      spec_fallback (m.metadata_name.getD "?") m.matchLabels alias_map
        (svcs.map Prod.fst) ∧
    (fallback_by_name (m.metadata_name.getD "?") m.matchLabels alias_map svcs = none →
      process_monitor m exclude alias_map svcs configmaps =
        ([], [], [warn_no_match (m.metadata_name.getD "?") m.matchLabels])) := by
  constructor
  · exact fallback_go_eq_findSome alias_map (svcs.map Prod.fst)
      ((m.metadata_name.getD "?") :: m.matchLabels.map Prod.snd)
  · intro hfb
    simp [process_monitor, matchLabels_isEmpty_false hmls, hfind, hfb]

/-- Witness for C1 at a concrete input: a monitor whose labels match no
service and whose second matchLabels value is an alias key. -/
theorem c1_name_fallback_witness :
    (fallback_by_name "mon" [("app", "ghost"), ("team", "keycloak")]
        [("keycloak", "kc")] [("api", { name := "api", ns := "", selector := [("app", "api")], type := "", ports := [] })] =
      spec_fallback "mon" [("app", "ghost"), ("team", "keycloak")]
        [("keycloak", "kc")] ["api"]) ∧
    (fallback_by_name "lost" [("x", "y")] [] [] = none) ∧
    (process_monitor { metadata_name := some "lost", matchLabels := [("x", "y")], endpoints := [] }
        [] [] [] [] = ([], [], [warn_no_match "lost" [("x", "y")]])) := by
  refine ⟨?_, ?_, ?_⟩
  · exact (c1_name_fallback
      { metadata_name := some "mon", matchLabels := [("app", "ghost"), ("team", "keycloak")], endpoints := [] }
      [] [("keycloak", "kc")]
      [("api", { name := "api", ns := "", selector := [("app", "api")], type := "", ports := [] })]
      [] (by decide) (by decide)).1
  · decide
  · exact (c1_name_fallback
      { metadata_name := some "lost", matchLabels := [("x", "y")], endpoints := [] }
      [] [] [] [] (by decide) (by decide)).2 (by decide)

/-- Claim C4: a monitor whose resolved compose service name matches a
configured exclude glob produces zero scrape jobs, zero CA mounts and zero
warnings, regardless of its endpoints. -/
theorem c4_exclusion_silent (m : SMManifest) (exclude : List String)
    (alias_map : List (String × String)) (svcs : List (String × ServiceInfo))
    (configmaps : List String) (cn : String) (hmls : m.matchLabels ≠ [])
    (hres :
      (∃ tsvc, find_service m.matchLabels svcs = some tsvc ∧
        cn = (List.lookup tsvc.name alias_map).getD tsvc.name) ∨
      (find_service m.matchLabels svcs = none ∧
        fallback_by_name (m.metadata_name.getD "?") m.matchLabels alias_map svcs =
          some cn))
    (hex : is_excluded cn exclude = true) :
    process_monitor m exclude alias_map svcs configmaps = ([], [], []) := by
  have hE := matchLabels_isEmpty_false hmls
  rcases hres with ⟨tsvc, hf, hcn⟩ | ⟨hf, hfb⟩
  · rw [hcn] at hex
    simp [process_monitor, hE, hf, monitor_after_resolve, hex]
  · simp [process_monitor, hE, hf, hfb, monitor_after_resolve, hex]

/-- Witness for C4 at a concrete input: the resolved name "api" matches
the exclude glob "a*", so a monitor whose only endpoint has an
unresolvable named port still yields no jobs and no warnings. -/
theorem c4_exclusion_silent_witness :
    process_monitor
      { metadata_name := some "mon", matchLabels := [("app", "api")],
        endpoints := [{ port := some (.str "nope"), scheme := none, path := none,
                        interval := none, tlsConfig := none }] }
      ["a*"] []
      [("api", { name := "api", ns := "", selector := [("app", "api")], type := "", ports := [] })]
      [] = ([], [], []) :=
  c4_exclusion_silent
    { metadata_name := some "mon", matchLabels := [("app", "api")],
      endpoints := [{ port := some (.str "nope"), scheme := none, path := none,
                      interval := none, tlsConfig := none }] }
    ["a*"] []
    [("api", { name := "api", ns := "", selector := [("app", "api")], type := "", ports := [] })]
    [] "api" (by decide)
    (Or.inl ⟨{ name := "api", ns := "", selector := [("app", "api")], type := "", ports := [] },
      by decide, by decide⟩)
    (by decide)

/-- Claim C10: with a non-empty matchLabels, the label-match step never
returns a registry service whose selector is empty; in particular it can
never return the synthetic entry registered under the key "prometheus",
whose selector is empty. -/
theorem c10_no_empty_selector_match (mls : List (String × String))
    (svcs : List (String × ServiceInfo)) (si : ServiceInfo) (hmls : mls ≠ [])
    (h : find_service mls svcs = some si) :
    si.selector ≠ [] ∧
    ∀ nsv ports, si ≠
      { name := "prometheus", ns := nsv, selector := [], type := "ClusterIP",
        ports := ports } := by
  have hp := List.find?_some h
  have hsel : si.selector ≠ [] := by
    intro hnil
    rw [Bool.and_eq_true] at hp
    rw [hnil] at hp
    simp at hp
  exact ⟨hsel, fun nsv ports heq => by rw [heq] at hsel; simp at hsel⟩

/-- Witness for C10 at a concrete input: the synthetic "prometheus" entry
comes first in the registry yet the match returns the real service. -/
theorem c10_no_empty_selector_match_witness :
    ({ name := "api", ns := "", selector := [("app", "api")], type := "",
       ports := [] } : ServiceInfo).selector ≠ [] ∧
    ∀ nsv ports,
      ({ name := "api", ns := "", selector := [("app", "api")], type := "",
         ports := [] } : ServiceInfo) ≠
        { name := "prometheus", ns := nsv, selector := [], type := "ClusterIP",
          ports := ports } :=
  c10_no_empty_selector_match [("app", "api")]
    [("prometheus",
      { name := "prometheus", ns := "", selector := [], type := "ClusterIP", ports := [] }),
     ("api", { name := "api", ns := "", selector := [("app", "api")], type := "", ports := [] })]
    { name := "api", ns := "", selector := [("app", "api")], type := "", ports := [] }
    (by decide) (by decide)

/-- Claim C5: every emitted scrape job targets
`<name>.<namespace>.svc.cluster.local` when a namespace is known —
preferring the namespace of the label-matched service, else the namespace
of the registry entry keyed by the resolved compose name — and the bare
resolved name otherwise; the full target string is host:port. -/
theorem c5_target_host (sm : String) (i n : Nat) (ep : Endpoint)
    (svc_info : Option ServiceInfo) (cn : String)
    (svcs : List (String × ServiceInfo)) (cms : List String) (pv : PortVal)
    (hp : resolve_port ep svc_info = some pv) :
    ∃ jo, (build_scrape_job sm i n ep svc_info cn svcs cms).1 = some jo ∧
      jo.job.target = spec_target_host cn svc_info svcs ++ ":" ++ pvStr pv := by
  simp only [build_scrape_job, hp]
  split
  · refine ⟨_, rfl, ?_⟩
    split <;> rfl
  · exact ⟨_, rfl, rfl⟩

/-- Witness for C5 at a concrete input: a label-matched service with an
empty namespace falls back to the registry namespace of the compose
name. -/
theorem c5_target_host_witness :
    ∃ jo,
      (build_scrape_job "mon" 0 1
        { port := some (.num 9100), scheme := none, path := none, interval := none,
          tlsConfig := none }
        (some { name := "svc-a", ns := "", selector := [("app", "a")], type := "", ports := [] })
        "svc-a"
        [("svc-a", { name := "svc-a", ns := "prod", selector := [("app", "a")], type := "", ports := [] })]
        []).1 = some jo ∧
      jo.job.target =
        spec_target_host "svc-a"
          (some { name := "svc-a", ns := "", selector := [("app", "a")], type := "", ports := [] })
          [("svc-a", { name := "svc-a", ns := "prod", selector := [("app", "a")], type := "", ports := [] })] ++
          ":" ++ pvStr (.num 9100) :=
  c5_target_host "mon" 0 1
    { port := some (.num 9100), scheme := none, path := none, interval := none,
      tlsConfig := none }
    (some { name := "svc-a", ns := "", selector := [("app", "a")], type := "", ports := [] })
    "svc-a"
    [("svc-a", { name := "svc-a", ns := "prod", selector := [("app", "a")], type := "", ports := [] })]
    [] (.num 9100) (by decide)

/-- Claim C7, counterexample to cross-run distinctness: two resolvable
monitors that share the name "m" (as two ServiceMonitors in different
namespaces may) each emit a single-endpoint job named "m", so the run's
job_name values are not distinct. -/
theorem c7_job_names_counterexample :
    (((process_servicemonitors none
        [{ metadata_name := some "m", matchLabels := [("app", "api")],
           endpoints := [{ port := some (.num 80), scheme := none, path := none,
                           interval := none, tlsConfig := none }] },
         { metadata_name := some "m", matchLabels := [("app", "api")],
           endpoints := [{ port := some (.num 80), scheme := none, path := none,
                           interval := none, tlsConfig := none }] }]
        { exclude := [], warnings := [], alias_map := [],
          services_by_selector :=
            [("api", { name := "api", ns := "", selector := [("app", "api")], type := "",
                       ports := [] })],
          configmaps := [], generated_cms := [] }).written.getD []).map
        ScrapeJob.job_name = ["m", "m"]) ∧
    ¬ (((process_servicemonitors none
        [{ metadata_name := some "m", matchLabels := [("app", "api")],
           endpoints := [{ port := some (.num 80), scheme := none, path := none,
                           interval := none, tlsConfig := none }] },
         { metadata_name := some "m", matchLabels := [("app", "api")],
           endpoints := [{ port := some (.num 80), scheme := none, path := none,
                           interval := none, tlsConfig := none }] }]
        { exclude := [], warnings := [], alias_map := [],
          services_by_selector :=
            [("api", { name := "api", ns := "", selector := [("app", "api")], type := "",
                       ports := [] })],
          configmaps := [], generated_cms := [] }).written.getD []).map
        ScrapeJob.job_name).Nodup := by
  constructor
  · decide
  · decide

/-- Claim C7, amended: a monitor with exactly one endpoint emits a job
named exactly like the monitor; a monitor with N positive endpoints, N not
one, names its jobs with the zero-based endpoint index, and those names
are pairwise distinct within that monitor — but job names need not be
distinct across monitors of one run. -/
theorem c7_job_names_amended (sm : String) (i n : Nat) (ep : Endpoint)
    (svc_info : Option ServiceInfo) (cn : String)
    (svcs : List (String × ServiceInfo)) (cms : List String) (pv : PortVal)
    (hp : resolve_port ep svc_info = some pv) :
    (∃ jo, (build_scrape_job sm i n ep svc_info cn svcs cms).1 = some jo ∧
      jo.job.job_name = spec_job_name sm n i) ∧
    (n ≠ 1 → ∀ j k : Nat, j ≠ k → spec_job_name sm n j ≠ spec_job_name sm n k) := by
  constructor
  · simp only [build_scrape_job, hp]
    split
    · refine ⟨_, rfl, ?_⟩
      split <;> rfl
    · exact ⟨_, rfl, rfl⟩
  · intro hn j k hjk
    exact spec_job_name_inj sm hn hjk

/-- Witness for the amended C7 at a concrete input: the second of two
endpoints gets the job name with index 1, and indices 0 and 1 give
distinct names. -/
theorem c7_job_names_amended_witness :
    ((∃ jo, (build_scrape_job "mon" 1 2
        { port := some (.num 80), scheme := none, path := none, interval := none,
          tlsConfig := none }
        none "api" [] []).1 = some jo ∧
      jo.job.job_name = spec_job_name "mon" 2 1) ∧
    ((2 : Nat) ≠ 1 → ∀ j k : Nat, j ≠ k →
      spec_job_name "mon" 2 j ≠ spec_job_name "mon" 2 k)) ∧
    spec_job_name "mon" 2 1 = "mon-1" :=
  ⟨c7_job_names_amended "mon" 1 2
      { port := some (.num 80), scheme := none, path := none, interval := none,
        tlsConfig := none }
      none "api" [] [] (.num 80) (by decide),
   by decide⟩

/-- Claim C6: an https endpoint whose tlsConfig references a CA configmap
name not in the known-artifact set still yields its scrape job, without a
ca_file, with exactly one warning appended and no CA mount; the job's
tls_config is omitted entirely when the server name is also absent, and
otherwise carries only the server name. -/
theorem c6_missing_ca_artifact (sm : String) (i n : Nat) (ep : Endpoint)
    (svc_info : Option ServiceInfo) (cn : String)
    (svcs : List (String × ServiceInfo)) (cms : List String) (pv : PortVal)
    (hscheme : ep.scheme = some "https")
    (hcm : cm_name_of ep ≠ "")
    (hmem : cms.contains (cm_name_of ep) = false)
    (hp : resolve_port ep svc_info = some pv) :
    ∃ jo, build_scrape_job sm i n ep svc_info cn svcs cms =
        (some jo, [warn_ca sm (cm_name_of ep)]) ∧
      jo.ca_mounts = [] ∧
      jo.job.tls_config =
        (if server_name_of ep = "" then none
         else some ⟨none, some (server_name_of ep)⟩) := by
  simp only [cm_name_of] at hcm hmem
  have htls : build_tls_config ep sm cms =
      (⟨none, if server_name_of ep = "" then none else some (server_name_of ep)⟩,
        [], [warn_ca sm (((ep.tlsConfig.bind fun t => t.ca_configMap).bind fun r => r.name).getD "")]) := by
    simp only [build_tls_config, server_name_of]
    rw [if_neg hcm, hmem]
    simp
  simp only [build_scrape_job, hp, hscheme, Option.getD_some, if_true, htls]
  by_cases hsn : server_name_of ep = ""
  · simp only [if_pos hsn]
    exact ⟨_, rfl, rfl, rfl⟩
  · simp only [if_neg hsn]
    exact ⟨_, rfl, rfl, rfl⟩

/-- Witness for C6 at a concrete input: an https endpoint referencing the
unknown configmap "my-ca", with no server name, yields a job with no
tls_config, no CA mount, and the single CA warning. -/
theorem c6_missing_ca_artifact_witness :
    ∃ jo, build_scrape_job "mon" 0 1
        { port := some (.num 8443), scheme := some "https", path := none,
          interval := none,
          tlsConfig := some { ca_configMap := some { name := some "my-ca", key := none },
                              serverName := none } }
        none "api" [] ["other-cm"] =
        (some jo,
         [warn_ca "mon"
           (cm_name_of
             { port := some (.num 8443), scheme := some "https", path := none,
               interval := none,
               tlsConfig := some { ca_configMap := some { name := some "my-ca", key := none },
                                   serverName := none } })]) ∧
      jo.ca_mounts = [] ∧
      jo.job.tls_config =
        (if server_name_of
             { port := some (.num 8443), scheme := some "https", path := none,
               interval := none,
               tlsConfig := some { ca_configMap := some { name := some "my-ca", key := none },
                                   serverName := none } } = "" then none
         else some ⟨none, some (server_name_of
             { port := some (.num 8443), scheme := some "https", path := none,
               interval := none,
               tlsConfig := some { ca_configMap := some { name := some "my-ca", key := none },
                                   serverName := none } })⟩) :=
  c6_missing_ca_artifact "mon" 0 1
    { port := some (.num 8443), scheme := some "https", path := none, interval := none,
      tlsConfig := some { ca_configMap := some { name := some "my-ca", key := none },
                          serverName := none } }
    none "api" [] ["other-cm"] (.num 8443) rfl (by decide) (by decide) (by decide)

/-- Claim C8: the produced service image is the indexed spec's image or
"prom/prometheus" if unset, tagged ":v<version without leading v>" when a
version is set and the image has no tag separator, else ":latest" when it
has none; retention defaults to "15d"; and the defaults warning — stating
the image and retention actually used — is appended exactly when no
Prometheus resource was indexed. -/
theorem c8_image_retention_defaults (prom : Option PromSpec) (ca : List String) :
    (build_prometheus_service prom ca).1.image = spec_image prom ∧
    (build_prometheus_service prom ca).1.command =
      ["--config.file=/etc/prometheus/prometheus.yml",
       "--storage.tsdb.retention.time=" ++ spec_retention prom] ∧
    ((build_prometheus_service prom ca).2 =
        [warn_defaults (spec_image prom) (spec_retention prom)] ↔ prom = none) := by
  cases prom with
  | none => exact ⟨rfl, rfl, iff_of_true rfl rfl⟩
  | some p =>
    refine ⟨rfl, rfl, iff_of_false ?_ (by simp)⟩
    intro h
    simp [build_prometheus_service] at h

/-- Helper: the CA mount loop equals first-seen deduplication appended to
the initial volume list. -/
theorem add_mounts_snd (l : List String) :
    ∀ seen acc, (add_mounts (seen, acc) l).2 = acc ++ dedup_from seen l := by
  induction l with
  | nil => intro seen acc; simp [add_mounts, dedup_from]
  | cons x xs ih =>
    intro seen acc
    simp only [add_mounts, dedup_from]
    by_cases h : x ∈ seen
    · simp [h, ih]
    · simp [h, ih]

/-- Helper: first-seen deduplication has no duplicates and avoids the
seen set. -/
theorem dedup_from_nodup :
    ∀ (l seen : List String),
      (dedup_from seen l).Nodup ∧ ∀ x ∈ dedup_from seen l, x ∉ seen := by
  intro l
  induction l with
  | nil => intro seen; simp [dedup_from]
  | cons x xs ih =>
    intro seen
    simp only [dedup_from]
    by_cases h : seen.contains x
    · simp only [if_pos h]
      exact ih seen
    · simp only [if_neg h]
      obtain ⟨hnd, hmem⟩ := ih (x :: seen)
      refine ⟨List.nodup_cons.2 ⟨fun hx => (hmem x hx) (List.mem_cons_self _ _), hnd⟩, ?_⟩
      intro y hy
      rcases List.mem_cons.1 hy with rfl | hy'
      · intro hys
        exact h (by simpa using hys)
      · intro hys
        exact (hmem y hy') (List.mem_cons_of_mem _ hys)

/-- Helper: every element of the input not already seen appears in the
deduplicated output. -/
theorem dedup_from_complete :
    ∀ (l : List String) (seen : List String) (m : String),
      m ∈ l → m ∉ seen → m ∈ dedup_from seen l := by
  intro l
  induction l with
  | nil => intro seen m h; simp at h
  | cons x xs ih =>
    intro seen m hm hns
    simp only [dedup_from]
    by_cases h : seen.contains x
    · rw [if_pos h]
      rcases List.mem_cons.1 hm with rfl | hm'
      · exact absurd (by simpa using h) hns
      · exact ih seen m hm' hns
    · rw [if_neg h]
      rcases List.mem_cons.1 hm with rfl | hm'
      · exact List.mem_cons_self _ _
      · by_cases hmx : m = x
        · subst hmx
          exact List.mem_cons_self _ _
        · refine List.mem_cons_of_mem _ (ih (x :: seen) m hm' ?_)
          simp [hmx, hns]

/-- Claim C9: the produced volume list is the scrape-config mount first,
followed by the accumulated CA mounts deduplicated by exact string
equality in first-seen order; every accumulated mount appears, and none
appears twice. -/
theorem c9_volume_dedup (prom : Option PromSpec) (ca : List String) :
    (build_prometheus_service prom ca).1.volumes = config_mount :: dedup_from [] ca ∧
    (dedup_from [] ca).Nodup ∧
    (∀ m ∈ ca, m ∈ dedup_from [] ca) := by
  refine ⟨?_, (dedup_from_nodup ca []).1,
    fun m hm => dedup_from_complete ca [] m hm (by simp)⟩
  show (add_mounts ([], [config_mount]) ca).2 = _
  rw [add_mounts_snd]
  simp

/-- Witness for C9 at a concrete input: two identical CA mount lines
contribute exactly one volume entry. -/
theorem c9_volume_dedup_witness :
    "./configmaps/ca/k.crt:/etc/prometheus/ca/ca/k.crt:ro" ∈
      dedup_from [] ["./configmaps/ca/k.crt:/etc/prometheus/ca/ca/k.crt:ro",
                     "./configmaps/ca/k.crt:/etc/prometheus/ca/ca/k.crt:ro"] ∧
    (build_prometheus_service none
        ["./configmaps/ca/k.crt:/etc/prometheus/ca/ca/k.crt:ro",
         "./configmaps/ca/k.crt:/etc/prometheus/ca/ca/k.crt:ro"]).1.volumes =
      [config_mount, "./configmaps/ca/k.crt:/etc/prometheus/ca/ca/k.crt:ro"] :=
  ⟨(c9_volume_dedup none
      ["./configmaps/ca/k.crt:/etc/prometheus/ca/ca/k.crt:ro",
       "./configmaps/ca/k.crt:/etc/prometheus/ca/ca/k.crt:ro"]).2.2
      "./configmaps/ca/k.crt:/etc/prometheus/ca/ca/k.crt:ro" (by decide),
   by decide⟩

/-- Helper: an endpoint with a present, non-falsy port specification never
resolves to a non-numeric port value. -/
theorem resolve_port_nonfalsy_num (ep : Endpoint) (svc_info : Option ServiceInfo)
    (pv : PortVal) (hfalsy : pv_falsy ep.port = false)
    (hres : resolve_port ep svc_info = some pv) : ∃ k : Int, pv = PortVal.num k := by
  simp only [resolve_port, hfalsy, Bool.false_eq_true, if_false] at hres
  cases hport : ep.port with
  | none =>
    rw [hport] at hfalsy
    simp [pv_falsy] at hfalsy
  | some v =>
    rw [hport] at hres
    cases v with
    | num n =>
      dsimp only at hres
      simp only [Option.some.injEq] at hres
      exact ⟨n, hres.symm⟩
    | str s =>
      dsimp only at hres
      by_cases hd : is_digit_str s
      · rw [if_pos hd] at hres
        simp only [Option.some.injEq] at hres
        exact ⟨_, hres.symm⟩
      · rw [if_neg hd] at hres
        cases svc_info with
        | none => simp at hres
        | some si =>
          dsimp only at hres
          cases hf : si.ports.find? (fun sp => sp.name == some s) with
          | none => rw [hf] at hres; simp at hres
          | some sp =>
            rw [hf] at hres
            dsimp only at hres
            cases htp : (sp.targetPort).orElse (fun _ => sp.port) with
            | none => rw [htp] at hres; simp at hres
            | some tp =>
              rw [htp] at hres
              cases tp with
              | num n =>
                dsimp only at hres
                simp only [Option.some.injEq] at hres
                exact ⟨n, hres.symm⟩
              | str t =>
                dsimp only at hres
                by_cases hdt : is_digit_str t
                · rw [if_pos hdt] at hres
                  simp only [Option.some.injEq] at hres
                  exact ⟨_, hres.symm⟩
                · rw [if_neg hdt] at hres
                  simp at hres

/-- Helper: a job successfully built from the endpoint at a given index is
in the output of the endpoint loop, whatever happens to the other
endpoints. -/
theorem run_endpoints_from_mem (sm : String) (svc_info : Option ServiceInfo)
    (cn : String) (svcs : List (String × ServiceInfo)) (cms : List String)
    (total : Nat) :
    ∀ (eps : List Endpoint) (i0 j : Nat) (ep : Endpoint) (jo : JobOut),
      eps.get? j = some ep →
      (build_scrape_job sm (i0 + j) total ep svc_info cn svcs cms).1 = some jo →
      jo.job ∈ (run_endpoints_from sm svc_info cn svcs cms total i0 eps).1 := by
  intro eps
  induction eps with
  | nil =>
    intro i0 j ep jo hg
    simp at hg
  | cons e rest ih =>
    intro i0 j ep jo hg hb
    cases j with
    | zero =>
      have he : e = ep := by simpa using hg
      subst he
      rw [Nat.add_zero] at hb
      simp only [run_endpoints_from]
      split
      · rename_i heq
        rw [hb] at heq
        simp at heq
      · rename_i jo2 heq
        rw [hb] at heq
        cases heq
        exact List.mem_cons_self _ _
    | succ j' =>
      have hg' : rest.get? j' = some ep := by simpa using hg
      have hb' : (build_scrape_job sm ((i0 + 1) + j') total ep svc_info cn svcs cms).1 =
          some jo := by
        have harith : i0 + (j' + 1) = (i0 + 1) + j' := by omega
        rwa [harith] at hb
      simp only [run_endpoints_from]
      split
      · exact ih (i0 + 1) j' ep jo hg' hb'
      · exact List.mem_cons_of_mem _ (ih (i0 + 1) j' ep jo hg' hb')

/-- Claim C2, counterexample to the no-non-numeric-port clause: an
endpoint with an absent port spec and a matched service whose first port
declares the named target-port "web" is not skipped — the port resolver
passes the name through without a numeric check, and the emitted job
targets the non-numeric "api:web". -/
theorem c2_port_counterexample :
    resolve_port
        { port := none, scheme := none, path := none, interval := none, tlsConfig := none }
        (some { name := "api", ns := "", selector := [("app", "api")], type := "",
                ports := [{ name := some "web", port := some (.num 8080),
                            targetPort := some (.str "web") }] }) =
      some (.str "web") ∧
    (build_scrape_job "mon" 0 1
        { port := none, scheme := none, path := none, interval := none, tlsConfig := none }
        (some { name := "api", ns := "", selector := [("app", "api")], type := "",
                ports := [{ name := some "web", port := some (.num 8080),
                            targetPort := some (.str "web") }] })
        "api" [] []).1 =
      some ⟨{ job_name := "mon", metrics_path := "/metrics", scrape_interval := "30s",
              scheme := "http", target := "api:web", tls_config := none }, []⟩ ∧
    is_digit_str "web" = false := by
  refine ⟨?_, ?_, ?_⟩ <;> decide

/-- Claim C2, amended: an endpoint whose port does not resolve is skipped
with exactly one warning naming the monitor and the unresolved port token,
while jobs built from the other endpoints of the monitor still appear in
the output; every endpoint with an explicit non-falsy port specification
resolves, if at all, to a numeric port — but an endpoint with an absent
(or falsy) port specification may pass the first declared target-port of
the matched service through even when it is a non-numeric name. -/
theorem c2_unresolved_port_amended (sm : String) (eps : List Endpoint)
    (svc_info : Option ServiceInfo) (cn : String)
    (svcs : List (String × ServiceInfo)) (cms : List String) :
    (∀ i ep, eps.get? i = some ep → resolve_port ep svc_info = none →
      build_scrape_job sm i eps.length ep svc_info cn svcs cms =
        (none, [warn_port sm (port_token ep)])) ∧
    (∀ j ep jo, eps.get? j = some ep →
      (build_scrape_job sm j eps.length ep svc_info cn svcs cms).1 = some jo →
      jo.job ∈ (run_endpoints sm eps svc_info cn svcs cms).1) ∧
    (∀ ep pv, pv_falsy ep.port = false → resolve_port ep svc_info = some pv →
      ∃ k : Int, pv = PortVal.num k) := by
  refine ⟨?_, ?_, ?_⟩
  · intro i ep hget hnone
    simp [build_scrape_job, hnone]
  · intro j ep jo hget hb
    have := run_endpoints_from_mem sm svc_info cn svcs cms eps.length eps 0 j ep jo hget
      (by simpa using hb)
    simpa [run_endpoints] using this
  · intro ep pv hfalsy hres
    exact resolve_port_nonfalsy_num ep svc_info pv hfalsy hres

/-- Witness for the amended C2 at a concrete input: of two endpoints, the
first (named port, no service) is skipped with its warning, and the job of
the second (numeric port) is still emitted. -/
theorem c2_unresolved_port_amended_witness :
    (build_scrape_job "mon" 0 2
        { port := some (.str "metrics"), scheme := none, path := none, interval := none,
          tlsConfig := none }
        none "api" [] [] = (none, [warn_port "mon" "metrics"])) ∧
    (∃ jo, (build_scrape_job "mon" 1 2
        { port := some (.num 9090), scheme := none, path := none, interval := none,
          tlsConfig := none }
        none "api" [] []).1 = some jo ∧
      jo.job ∈ (run_endpoints "mon"
        [{ port := some (.str "metrics"), scheme := none, path := none, interval := none,
           tlsConfig := none },
         { port := some (.num 9090), scheme := none, path := none, interval := none,
           tlsConfig := none }]
        none "api" [] []).1) := by
  constructor
  · exact (c2_unresolved_port_amended "mon"
      [{ port := some (.str "metrics"), scheme := none, path := none, interval := none,
         tlsConfig := none },
       { port := some (.num 9090), scheme := none, path := none, interval := none,
         tlsConfig := none }]
      none "api" [] []).1 0
      { port := some (.str "metrics"), scheme := none, path := none, interval := none,
        tlsConfig := none }
      (by decide) (by decide)
  · refine ⟨⟨{ job_name := "mon-1", metrics_path := "/metrics", scrape_interval := "30s",
               scheme := "http", target := "api:9090", tls_config := none }, []⟩,
      by decide, ?_⟩
    exact (c2_unresolved_port_amended "mon"
      [{ port := some (.str "metrics"), scheme := none, path := none, interval := none,
         tlsConfig := none },
       { port := some (.num 9090), scheme := none, path := none, interval := none,
         tlsConfig := none }]
      none "api" [] []).2.1 1
      { port := some (.num 9090), scheme := none, path := none, interval := none,
        tlsConfig := none }
      ⟨{ job_name := "mon-1", metrics_path := "/metrics", scrape_interval := "30s",
         scheme := "http", target := "api:9090", tls_config := none }, []⟩
      (by decide) (by decide)

/-- Claim C3, counterexample to the empty-manifest-list case: the run over
an empty manifest list produces zero scrape jobs, writes nothing and
returns no service, yet appends no warning at all — not the single
"no resolvable ServiceMonitors" warning the claim demands. -/
theorem c3_empty_run_counterexample :
    (process_servicemonitors none []
        { exclude := [], warnings := [], alias_map := [], services_by_selector := [],
          configmaps := [], generated_cms := [] }).written = none ∧
    (process_servicemonitors none []
        { exclude := [], warnings := [], alias_map := [], services_by_selector := [],
          configmaps := [], generated_cms := [] }).res.services = [] ∧
    (process_servicemonitors none []
        { exclude := [], warnings := [], alias_map := [], services_by_selector := [],
          configmaps := [], generated_cms := [] }).ctx.warnings = [] := by
  refine ⟨?_, ?_, ?_⟩ <;> decide

/-- Claim C3, amended: a run over a non-empty manifest list that produces
zero scrape jobs appends the monitor-loop warnings followed by exactly one
"No resolvable ServiceMonitors found" warning (which never occurs among
the monitor-loop warnings), writes no configuration document, registers no
generated configmap and returns no service; a run over an empty manifest
list returns immediately with no warning, no document and no service. -/
theorem c3_zero_jobs_amended (prom : Option PromSpec) (manifests : List SMManifest)
    (ctx : Ctx) (hne : manifests ≠ [])
    (hzero : (run_monitors ctx.exclude ctx.alias_map ctx.services_by_selector
      ctx.configmaps manifests).1 = []) :
    (process_servicemonitors prom manifests ctx).res.services = [] ∧
    (process_servicemonitors prom manifests ctx).written = none ∧
    (process_servicemonitors prom manifests ctx).ctx.warnings =
      ctx.warnings ++
        (run_monitors ctx.exclude ctx.alias_map ctx.services_by_selector
          ctx.configmaps manifests).2.2 ++ [warn_no_resolvable] ∧
    warn_no_resolvable ∉
      (run_monitors ctx.exclude ctx.alias_map ctx.services_by_selector
        ctx.configmaps manifests).2.2 ∧
    (process_servicemonitors prom manifests ctx).ctx.generated_cms =
      ctx.generated_cms ∧
    (process_servicemonitors prom [] ctx).res.services = [] ∧
    (process_servicemonitors prom [] ctx).written = none ∧
    (process_servicemonitors prom [] ctx).ctx = ctx := by
  have hE : manifests.isEmpty = false := by
    cases manifests with
    | nil => exact absurd rfl hne
    | cons m rest => rfl
  refine ⟨?_, ?_, ?_, ?_, ?_, rfl, rfl, rfl⟩ <;>
    simp [process_servicemonitors, hE, hzero,
      no_resolvable_not_mem_run_monitors]

/-- Witness for the amended C3 at a concrete input: a single monitor whose
labels match nothing yields its own skip warning plus the single run-level
warning, and no service. -/
theorem c3_zero_jobs_amended_witness :
    (process_servicemonitors none
        [{ metadata_name := some "ghost", matchLabels := [("app", "ghost")],
           endpoints := [] }]
        { exclude := [], warnings := [], alias_map := [], services_by_selector := [],
          configmaps := [], generated_cms := [] }).res.services = [] ∧
    (process_servicemonitors none
        [{ metadata_name := some "ghost", matchLabels := [("app", "ghost")],
           endpoints := [] }]
        { exclude := [], warnings := [], alias_map := [], services_by_selector := [],
          configmaps := [], generated_cms := [] }).written = none ∧
    (process_servicemonitors none
        [{ metadata_name := some "ghost", matchLabels := [("app", "ghost")],
           endpoints := [] }]
        { exclude := [], warnings := [], alias_map := [], services_by_selector := [],
          configmaps := [], generated_cms := [] }).ctx.warnings =
      [] ++
        (run_monitors [] [] [] []
          [{ metadata_name := some "ghost", matchLabels := [("app", "ghost")],
             endpoints := [] }]).2.2 ++ [warn_no_resolvable] :=
  have h := c3_zero_jobs_amended none
    [{ metadata_name := some "ghost", matchLabels := [("app", "ghost")],
       endpoints := [] }]
    { exclude := [], warnings := [], alias_map := [], services_by_selector := [],
      configmaps := [], generated_cms := [] }
    (by decide) (by decide)
  ⟨h.1, h.2.1, h.2.2.1⟩

/-- Witness for C8 at a concrete input: with no indexed spec the image is
"prom/prometheus:latest", the retention flag says "15d", and the defaults
warning is present. -/
theorem c8_image_retention_defaults_witness :
    (build_prometheus_service none []).1.image = spec_image none ∧
    (build_prometheus_service none []).1.command =
      ["--config.file=/etc/prometheus/prometheus.yml",
       "--storage.tsdb.retention.time=" ++ spec_retention none] ∧
    ((build_prometheus_service none []).2 =
        [warn_defaults (spec_image none) (spec_retention none)] ↔
      (none : Option PromSpec) = none) :=
  c8_image_retention_defaults none []
